import Mathlib

/-!
Shallow embedding of the meditr real-time relay and its storage collaborator.

Source files embedded here:
- `src/server/storage.ts`: the `storage` object literal (lines 157-893).
  The operations relevant to the claims are `assignResources` (defined twice
  inside the same object literal: the full implementation at lines 532-575 and
  a stub at lines 814-817; in JavaScript the later duplicate key wins, so the
  stub is the effective `storage.assignResources`), `createEmergencyAlert`,
  `createLocationUpdate`, `resolveEmergency`, `assignAmbulance` and
  `updateEmergency`.
- `src/unnamed/part_006`: the newer WebSocket message handler (the relay),
  lines 758-838: message-shape validation, the `location_update` branch
  (persist then fan out to every other open connection), the
  `emergency_broadcast` branch (persist then fan out to every open connection
  including the sender), and the catch block that converts any thrown error
  into a single unicast `error` reply to the sender when it is still open.

Modelling conventions:
- JavaScript numbers carried by messages (ids, coordinates, accuracy) are
  modelled as `Rat`; `x.toString()` is `jsToString`, an injective encoding.
- JavaScript truthiness of the message fields the handler tests is modelled
  by `numTruthy` (a number is falsy exactly when it is 0; NaN does not arise
  for the rational values modelled here), `strTruthy` (a string is falsy
  exactly when it is empty) and `Option.isSome` for object fields.
- `JSON.stringify`/`JSON.parse` of the `assignedResources` column are inverse
  on the lists the code writes, so the column is modelled directly as
  `Option (List Nat)`.
- Database serial ids are modelled as `length + 1`; `new Date()`/`Date.now()`
  timestamps are a `now : Nat` parameter; timestamp columns not read by any
  claim (`createdAt`, `updatedAt` bookkeeping beyond the write itself) are
  kept as plain `Nat` fields.
- A rejected promise from a storage call is modelled by an `Option String`
  failure parameter (`some msg` means the awaited call rejects with that
  message); a JavaScript `throw` is `Except.error`.
-/

namespace MediTr

/-- `x.toString()` on a JavaScript number, modelled as an injective encoding
of the rational value. -/
def jsToString (x : Rat) : String := toString x

/-- JavaScript truthiness of an optional numeric field: `undefined` and `0`
are falsy, every other number is truthy. -/
def numTruthy : Option Rat → Bool
  | none => false
  | some x => x != 0

/-- JavaScript truthiness of an optional string field: `undefined` and `""`
are falsy. -/
def strTruthy : Option String → Bool
  | none => false
  | some s => s != ""

/-- `o || d` on an optional string field (JavaScript `||` with string
truthiness). -/
def jsOrStr (o : Option String) (d : String) : String :=
  match o with
  | some s => if s = "" then d else s
  | none => d

/-- The `location` object of an `emergency_broadcast` message:
`{latitude, longitude, accuracy?}`. -/
structure Loc where
  latitude : Rat
  longitude : Rat
  accuracy : Option Rat
deriving DecidableEq, Repr

/-- An inbound WebSocket message after `JSON.parse`, restricted to the fields
the handler reads. Absent fields are `none` (JavaScript `undefined`). -/
structure WsMessage where
  type : Option String := none
  id : Option Rat := none
  latitude : Option Rat := none
  longitude : Option Rat := none
  accuracy : Option Rat := none
  role : Option String := none
  userId : Option Rat := none
  location : Option Loc := none
  emergencyType : Option String := none
  description : Option String := none
  severity : Option String := none
deriving DecidableEq, Repr

/-- A row of the `location_updates` table (schema.ts lines 16-24), with the
fields `createLocationUpdate` writes. `latitude`/`longitude`/`accuracy` are
stored stringified, as in the source. -/
structure LocationRow where
  userId : Rat
  latitude : String
  longitude : String
  accuracy : Option String
  timestamp : Nat
  source : String
deriving DecidableEq, Repr

/-- A row of the `emergency_alerts` table (schema.ts lines 152-169), with the
columns the embedded operations read or write. -/
structure EmergencyAlertRow where
  id : Nat
  userId : Rat
  latitude : String
  longitude : String
  accuracy : Option String
  emergencyType : String
  description : String
  status : String
  priority : String
  ambulanceId : Option Nat
  assignedResources : Option (List Nat)
  createdAt : Nat
  updatedAt : Nat
  assignedAt : Option Nat
deriving DecidableEq, Repr

/-- A row of the `emergency_resources` table (schema.ts lines 270-282),
restricted to the columns `assignResources` touches. -/
structure ResourceRow where
  id : Nat
  status : String
deriving DecidableEq, Repr

/-- A row of the `emergency_resource_assignments` table (schema.ts lines
294-301). -/
structure AssignmentRow where
  id : Nat
  emergencyId : Nat
  resourceId : Nat
  status : String
  assignedAt : Nat
deriving DecidableEq, Repr

/-- The relational store, restricted to the tables the claims touch. -/
structure DB where
  alerts : List EmergencyAlertRow := []
  resources : List ResourceRow := []
  assignments : List AssignmentRow := []
  locationUpdates : List LocationRow := []
deriving DecidableEq, Repr

/-- The argument record of `storage.createEmergencyAlert`
(storage.ts lines 756-764). -/
structure AlertInsert where
  userId : Rat
  latitude : String
  longitude : String
  accuracy : Option String
  emergencyType : String
  description : String
  priority : String
deriving DecidableEq, Repr

/-- `storage.createEmergencyAlert` (storage.ts lines 756-774): inserts a row
with `...data`, `status: 'active'`, fresh `createdAt`/`updatedAt`, and
returns it. -/
def createEmergencyAlert (db : DB) (now : Nat) (d : AlertInsert) :
    DB × EmergencyAlertRow :=
  let alert : EmergencyAlertRow :=
    { id := db.alerts.length + 1
      userId := d.userId
      latitude := d.latitude
      longitude := d.longitude
      accuracy := d.accuracy
      emergencyType := d.emergencyType
      description := d.description
      status := "active"
      priority := d.priority
      ambulanceId := none
      assignedResources := none
      createdAt := now
      updatedAt := now
      assignedAt := none }
  ({ db with alerts := db.alerts ++ [alert] }, alert)

/-- `storage.createLocationUpdate` (storage.ts lines 776-788): inserts the
given row and returns it. -/
def createLocationUpdate (db : DB) (row : LocationRow) : DB × LocationRow :=
  ({ db with locationUpdates := db.locationUpdates ++ [row] }, row)

/-- `storage.resolveEmergency` (storage.ts lines 314-320): sets
`status: 'resolved'` on the row with the given id. -/
def resolveEmergency (db : DB) (id : Nat) : DB :=
  { db with
    alerts := db.alerts.map fun a =>
      if a.id = id then { a with status := "resolved" } else a }

/-- `storage.assignAmbulance` (storage.ts lines 322-328): sets `ambulanceId`
on the row with the given id; it does not write `status`. -/
def assignAmbulance (db : DB) (emergencyId ambulanceId : Nat) : DB :=
  { db with
    alerts := db.alerts.map fun a =>
      if a.id = emergencyId then { a with ambulanceId := some ambulanceId }
      else a }

/-- A `Partial` update record for `storage.updateEmergency`, restricted to
the columns modelled here; `some v` means the caller supplied the field. -/
structure EmergencyPatch where
  status : Option String := none
  priority : Option String := none
  description : Option String := none
  ambulanceId : Option Nat := none
deriving DecidableEq, Repr

/-- `storage.updateEmergency` (storage.ts lines 806-812): spreads the
caller-supplied fields over the row with the given id and refreshes
`updatedAt`. The caller-supplied `status`, if any, is written verbatim. -/
def updateEmergency (db : DB) (now : Nat) (id : Nat) (d : EmergencyPatch) :
    DB :=
  { db with
    alerts := db.alerts.map fun a =>
      if a.id = id then
        { a with
          status := d.status.getD a.status
          priority := d.priority.getD a.priority
          description := d.description.getD a.description
          ambulanceId := match d.ambulanceId with
            | some x => some x
            | none => a.ambulanceId
          updatedAt := now }
      else a }

/-- The FIRST `assignResources` key of the `storage` object literal
(storage.ts lines 532-575). For each resource id, in order: insert an
assignment row with `status: 'assigned'`, set the resource's status to
`'in_use'`, and if the emergency row exists, parse its `assignedResources`
JSON (or start from `[]`), push the resource id and write it back together
with `assignedAt`. In JavaScript this definition is shadowed by the later
duplicate key, so it is never the value of `storage.assignResources`. -/
def assignResourcesShadowed (db : DB) (now : Nat) (emergencyId : Nat)
    (resourceIds : List Nat) : DB × List AssignmentRow :=
  resourceIds.foldl
    (fun (acc : DB × List AssignmentRow) resourceId =>
      let db := acc.1
      let assignment : AssignmentRow :=
        { id := db.assignments.length + 1
          emergencyId := emergencyId
          resourceId := resourceId
          status := "assigned"
          assignedAt := now }
      let db : DB := { db with assignments := db.assignments ++ [assignment] }
      let db : DB :=
        { db with
          resources := db.resources.map fun r =>
            if r.id = resourceId then { r with status := "in_use" } else r }
      let emergency := (db.alerts.filter fun a => a.id = emergencyId).head?
      let db : DB :=
        match emergency with
        | some e =>
          let assigned := e.assignedResources.getD []
          let assigned := assigned ++ [resourceId]
          { db with
            alerts := db.alerts.map fun a =>
              if a.id = emergencyId then
                { a with
                  assignedResources := some assigned
                  assignedAt := some now }
              else a }
        | none => db
      (db, acc.2 ++ [assignment]))
    (db, [])

/-- The result object of the SECOND `assignResources` key
(storage.ts lines 814-817): `{ success: true }`. -/
structure AssignStubResult where
  success : Bool
deriving DecidableEq, Repr

/-- The SECOND `assignResources` key of the `storage` object literal
(storage.ts lines 814-817). Being the later duplicate key, this is the
effective value of `storage.assignResources`: it performs no database
operation and returns `{ success: true }`. -/
def assignResources (db : DB) (_emergencyId : Nat) (_resourceIds : List Nat) :
    DB × AssignStubResult :=
  (db, { success := true })

/-- A WebSocket connection as the fan-out loops see it: a model-level
identity (`client !== ws` is object identity) and whether
`readyState === WebSocket.OPEN`. -/
structure Client where
  id : Nat
  isOpen : Bool
deriving DecidableEq, Repr

/-- A message sent to a connection by the handler, structured as the JSON
the source stringifies. -/
inductive OutMsg where
  /-- `{type:'location_update', data:{id, latitude, longitude, accuracy,
  role, timestamp}}` -/
  | locationUpdate (id latitude longitude : Rat) (accuracy : Option Rat)
      (role : Option String) (timestamp : Nat)
  /-- `{type:'emergency_broadcast', data: emergency}` -/
  | emergencyBroadcast (alert : EmergencyAlertRow)
  /-- `{type:'error', message}` -/
  | errorMsg (message : String)
deriving DecidableEq, Repr

/-- One `client.send(...)` performed by the handler, addressed by the
recipient client's model identity. -/
structure Output where
  target : Nat
  payload : OutMsg
deriving DecidableEq, Repr

/-- The try-block of the newer relay's message handler
(src/unnamed/part_006 lines 760-827), for an already-parsed message.
`locFail`/`alertFail` being `some msg` model the awaited
`createLocationUpdate`/`createEmergencyAlert` promise rejecting with that
message. The source's two `if (data.type === ...)` blocks are sequential but
mutually exclusive, so they are written as an `else if` chain; in the
`emergency_broadcast` branch the source dereferences `data.location` only
after the truthiness check, so the `match` below is reached only with
`some loc`. A thrown error is `Except.error` with the error's message. -/
def handleMessageCore (now : Nat) (sender : Client) (clients : List Client)
    (db : DB) (locFail alertFail : Option String) (data : WsMessage) :
    Except String (DB × List Output) :=
  -- if (!data.type || !data.id) throw new Error('Invalid message format');
  if (strTruthy data.type && numTruthy data.id) = false then
    Except.error "Invalid message format"
  else if data.type = some "location_update" then
    -- if (!data.latitude || !data.longitude) throw new Error('Invalid location data');
    if (numTruthy data.latitude && numTruthy data.longitude) = false then
      Except.error "Invalid location data"
    else
      match locFail with
      | some msg => Except.error msg
      | none =>
        let i := data.id.getD 0
        let lat := data.latitude.getD 0
        let long := data.longitude.getD 0
        let row : LocationRow :=
          { userId := i
            latitude := jsToString lat
            longitude := jsToString long
            accuracy := data.accuracy.map jsToString
            timestamp := now
            source := jsOrStr data.role "user" }
        let db := (createLocationUpdate db row).1
        let outs :=
          (clients.filter fun c => c.id != sender.id && c.isOpen).map fun c =>
            Output.mk c.id
              (OutMsg.locationUpdate i lat long data.accuracy data.role now)
        Except.ok (db, outs)
  else if data.type = some "emergency_broadcast" then
    -- if (!data.userId || !data.location) throw new Error('Invalid emergency data');
    if (numTruthy data.userId && data.location.isSome) = false then
      Except.error "Invalid emergency data"
    else
      match data.location with
      | none => Except.error "Invalid emergency data"
      | some loc =>
        match alertFail with
        | some msg => Except.error msg
        | none =>
          let ins : AlertInsert :=
            { userId := data.userId.getD 0
              latitude := jsToString loc.latitude
              longitude := jsToString loc.longitude
              accuracy := loc.accuracy.map jsToString
              emergencyType := data.type.getD ""
              description := jsOrStr data.description ""
              priority := jsOrStr data.severity "medium" }
          let r := createEmergencyAlert db now ins
          let outs :=
            (clients.filter fun c => c.isOpen).map fun c =>
              Output.mk c.id (OutMsg.emergencyBroadcast r.2)
          Except.ok (r.1, outs)
  else
    Except.ok (db, [])

/-- The full message handler including the catch block
(src/unnamed/part_006 lines 829-838): any thrown error becomes a single
`error` reply to the sender when the sender's readyState is still OPEN.
An error can only be thrown before any database write in `handleMessageCore`
(the two message-type branches are exclusive and each validates and awaits
persistence before writing), so the catch returns the incoming database
state unchanged. -/
def handleMessage (now : Nat) (sender : Client) (clients : List Client)
    (db : DB) (locFail alertFail : Option String) (data : WsMessage) :
    DB × List Output :=
  match handleMessageCore now sender clients db locFail alertFail data with
  | Except.ok r => r
  | Except.error msg =>
    (db, if sender.isOpen then [Output.mk sender.id (OutMsg.errorMsg msg)]
      else [])

/-- The closed set of EmergencyAlert statuses named by the spec. -/
def validStatuses : List String :=
  ["pending", "active", "in_progress", "resolved"]

/-- Every alert's status lies in the closed set. -/
def statusInvariant (db : DB) : Prop :=
  ∀ a ∈ db.alerts, a.status ∈ validStatuses

/-- The argument record the `emergency_broadcast` branch passes to
`createEmergencyAlert` (src/unnamed/part_006 lines 809-817), for a message
with userId `uid` and location `loc`: the stored `emergencyType` is
`data.type` (the tag `"emergency_broadcast"` in this branch), the
description defaults to `''` and the priority to `'medium'` by string
truthiness. -/
def broadcastInsert (data : WsMessage) (uid : Rat) (loc : Loc) :
    AlertInsert :=
  { userId := uid
    latitude := jsToString loc.latitude
    longitude := jsToString loc.longitude
    accuracy := loc.accuracy.map jsToString
    emergencyType := "emergency_broadcast"
    description := jsOrStr data.description ""
    priority := jsOrStr data.severity "medium" }

/-! Concrete inputs used by witnesses and counterexamples. -/

/-- An open connection with model identity 1 (the sender in the concrete
scenarios). -/
def clientA : Client := ⟨1, true⟩

/-- An open peer connection with model identity 2. -/
def clientB : Client := ⟨2, true⟩

/-- A connection with model identity 3 whose readyState is no longer OPEN. -/
def clientC : Client := ⟨3, false⟩

/-- The empty store. -/
def db0 : DB := {}

/-- The latitude -1.2921 from the spec's concrete scenario. -/
def latEx : Rat := mkRat (-12921) 10000

/-- The longitude 36.8219 from the spec's concrete scenario. -/
def longEx : Rat := mkRat 368219 10000

/-- The spec's concrete scenario message: `{type: "location_update", id: 42,
latitude: -1.2921, longitude: 36.8219, accuracy: 15, role: "user"}`. -/
def msgScenario : WsMessage :=
  { type := some "location_update"
    id := some 42
    latitude := some latEx
    longitude := some longEx
    accuracy := some 15
    role := some "user" }

/-- The location row the scenario message persists at server time 100. -/
def rowScenario : LocationRow :=
  { userId := 42
    latitude := jsToString latEx
    longitude := jsToString longEx
    accuracy := some (jsToString 15)
    timestamp := 100
    source := "user" }

/-- An `emergency_broadcast` message carrying exactly the documented fields
(a truthy userId and a location) and no `id` field. -/
def msgNoId : WsMessage :=
  { type := some "emergency_broadcast"
    userId := some 1
    location := some ⟨latEx, longEx, none⟩ }

/-- An accepted `emergency_broadcast` message whose body also carries an
`emergencyType` field ("fire") distinct from the message's type tag. -/
def msgEmergency : WsMessage :=
  { type := some "emergency_broadcast"
    id := some 5
    userId := some 7
    location := some ⟨latEx, longEx, some 15⟩
    emergencyType := some "fire"
    description := some "help"
    severity := some "high" }

/-- An accepted `emergency_broadcast` message whose `severity` field is
present but is the empty string. -/
def msgEmptySeverity : WsMessage :=
  { type := some "emergency_broadcast"
    id := some 5
    userId := some 7
    location := some ⟨latEx, longEx, none⟩
    severity := some "" }

/-- A `location_update` message whose latitude is exactly 0 (a valid
coordinate on the equator). -/
def msgZeroLat : WsMessage :=
  { type := some "location_update"
    id := some 42
    latitude := some 0
    longitude := some longEx }

/-- A `location_update` message whose `id` field is 0. -/
def msgZeroId : WsMessage :=
  { type := some "location_update"
    id := some 0
    latitude := some latEx
    longitude := some longEx }

/-- A `location_update` message with a truthy id and longitude but no
latitude field. -/
def msgNoLat : WsMessage :=
  { type := some "location_update"
    id := some 42
    longitude := some longEx }

/-- An emergency alert row used as the pre-existing state in the
resource-assignment and status scenarios. -/
def exAlert : EmergencyAlertRow :=
  { id := 1
    userId := 7
    latitude := "0"
    longitude := "0"
    accuracy := none
    emergencyType := "medical"
    description := ""
    status := "active"
    priority := "medium"
    ambulanceId := none
    assignedResources := none
    createdAt := 0
    updatedAt := 0
    assignedAt := none }

/-- A store holding one active alert and two available resources. -/
def exDb : DB :=
  { alerts := [exAlert]
    resources := [⟨1, "available"⟩, ⟨2, "available"⟩] }

/-! Theorems. -/

/-- C1: evaluated at emergency 1 and the initially available resources
[1, 2], the effective `storage.assignResources` (the later duplicate key of
the `storage` object literal) performs no database operation: it returns
`{success: true}`, inserts no assignment record, leaves both resources
"available", and leaves the alert's assigned-resources list empty —
contradicting the claimed two "assigned" records, two "in_use" flips and
updated assigned-resources list. -/
theorem assignResources_effective_noop :
    assignResources exDb 1 [1, 2] = (exDb, { success := true }) ∧
    (assignResources exDb 1 [1, 2]).1.assignments = [] ∧
    ((assignResources exDb 1 [1, 2]).1.resources.map ResourceRow.status) =
      ["available", "available"] ∧
    ((assignResources exDb 1 [1, 2]).1.alerts.map
      EmergencyAlertRow.assignedResources) = [none] :=
  ⟨rfl, rfl, rfl, rfl⟩

/-- The shadowed first `assignResources` implementation meets the claimed
contract at the same input: two assignment records with status "assigned"
for resources 1 and 2, both resources flipped to "in_use", and the alert's
assigned-resources list holding both ids. This shows the claim describes the
textually earlier implementation that the duplicate key disables. -/
theorem assignResourcesShadowed_meets_contract :
    ((assignResourcesShadowed exDb 9 1 [1, 2]).2.map AssignmentRow.status) =
      ["assigned", "assigned"] ∧
    ((assignResourcesShadowed exDb 9 1 [1, 2]).2.map
      AssignmentRow.resourceId) = [1, 2] ∧
    ((assignResourcesShadowed exDb 9 1 [1, 2]).1.resources.map
      ResourceRow.status) = ["in_use", "in_use"] ∧
    ((assignResourcesShadowed exDb 9 1 [1, 2]).1.alerts.map
      EmergencyAlertRow.assignedResources) = [some [1, 2]] :=
  ⟨rfl, rfl, rfl, rfl⟩

/-- C2 counterexample: `msgNoId` is an `emergency_broadcast` message with a
valid userId and location (it carries exactly the documented fields and no
`id`), both connections are open, yet the relay persists nothing and sends
only a unicast `error` reply to the sender — the open peer (identity 2)
receives no EmergencyAlert, refuting the claim as stated. -/
theorem emergency_broadcast_missing_id_counterexample :
    msgNoId.type = some "emergency_broadcast" ∧
    msgNoId.userId = some 1 ∧
    msgNoId.location.isSome = true ∧
    clientB.isOpen = true ∧
    handleMessage 0 clientA [clientA, clientB] db0 none none msgNoId =
      (db0, [Output.mk 1 (OutMsg.errorMsg "Invalid message format")]) :=
  ⟨rfl, rfl, rfl, rfl, rfl⟩

/-- C6 counterexample: `updateEmergency` writes the caller-supplied status
verbatim, so the status "compromised" — outside the closed set — ends up on
the stored alert. -/
theorem updateEmergency_status_counterexample :
    ((updateEmergency exDb 0 1 { status := some "compromised" }).alerts.map
      EmergencyAlertRow.status) = ["compromised"] ∧
    "compromised" ∉ validStatuses :=
  ⟨rfl, by decide⟩

/-- C3: for every `location_update` message that the relay deems valid
(truthy id and numeric, nonzero latitude and longitude) and whose
persistence succeeds, the handler appends exactly one LocationRow with the
message's id and the stringified latitude, longitude and accuracy, and
sends exactly one `location_update` event — carrying the message's id,
latitude, longitude, accuracy, role and the server timestamp — to each
currently-open connection other than the sender, and nothing else. -/
theorem location_update_persist_and_fanout
    (now : Nat) (sender : Client) (clients : List Client) (db : DB)
    (alertFail : Option String) (data : WsMessage) (i lat long : Rat)
    (hid : data.id = some i) (hi : i ≠ 0)
    (hlat : data.latitude = some lat) (hlat0 : lat ≠ 0)
    (hlong : data.longitude = some long) (hlong0 : long ≠ 0)
    (ht : data.type = some "location_update") :
    handleMessage now sender clients db none alertFail data =
      ({ db with
          locationUpdates := db.locationUpdates ++
            [{ userId := i
               latitude := jsToString lat
               longitude := jsToString long
               accuracy := data.accuracy.map jsToString
               timestamp := now
               source := jsOrStr data.role "user" }] },
        (clients.filter fun c => c.id != sender.id && c.isOpen).map fun c =>
          Output.mk c.id
            (OutMsg.locationUpdate i lat long data.accuracy data.role now)) := by
  unfold handleMessage handleMessageCore createLocationUpdate
  rw [ht, hid, hlat, hlong]
  simp [strTruthy, numTruthy, hi, hlat0, hlong0]

/-- C3 witness: the spec's concrete scenario. Connection 1 sends the
`{type: "location_update", id: 42, latitude: -1.2921, longitude: 36.8219,
accuracy: 15, role: "user"}` message at server time 100 while connections 1
and 2 are open and connection 3 has closed: the stated row is persisted and
the stated event goes exactly to connection 2. -/
theorem location_update_persist_and_fanout_witness :
    handleMessage 100 clientA [clientA, clientB, clientC] db0 none none
        msgScenario =
      ({ db0 with locationUpdates := [rowScenario] },
        [Output.mk 2
          (OutMsg.locationUpdate 42 latEx longEx (some 15) (some "user")
            100)]) :=
  (location_update_persist_and_fanout 100 clientA [clientA, clientB, clientC]
    db0 none msgScenario 42 latEx longEx rfl (by decide) rfl (by decide) rfl
    (by decide) rfl).trans (by rfl)

/-- C4: when the awaited `createLocationUpdate` call rejects for a
`location_update` message that passed validation, the thrown error reaches
the catch block before the fan-out loop runs: the store is unchanged and the
only send is a single `error` reply to the (still open) originating
connection. -/
theorem location_persist_failure_unicast_error
    (now : Nat) (sender : Client) (clients : List Client) (db : DB)
    (alertFail : Option String) (data : WsMessage) (errMsg : String)
    (i lat long : Rat)
    (hid : data.id = some i) (hi : i ≠ 0)
    (hlat : data.latitude = some lat) (hlat0 : lat ≠ 0)
    (hlong : data.longitude = some long) (hlong0 : long ≠ 0)
    (ht : data.type = some "location_update")
    (hopen : sender.isOpen = true) :
    handleMessage now sender clients db (some errMsg) alertFail data =
      (db, [Output.mk sender.id (OutMsg.errorMsg errMsg)]) := by
  unfold handleMessage handleMessageCore
  rw [ht, hid, hlat, hlong]
  simp [strTruthy, numTruthy, hi, hlat0, hlong0, hopen]

/-- C4 witness: persistence of the concrete scenario message rejects with
"db down"; the sender alone receives an error reply and nothing is
persisted. -/
theorem location_persist_failure_unicast_error_witness :
    handleMessage 100 clientA [clientA, clientB, clientC] db0 (some "db down")
        none msgScenario =
      (db0, [Output.mk 1 (OutMsg.errorMsg "db down")]) :=
  location_persist_failure_unicast_error 100 clientA
    [clientA, clientB, clientC] db0 none msgScenario "db down" 42 latEx longEx
    rfl (by decide) rfl (by decide) rfl (by decide) rfl rfl

/-- C5: a `location_update` message missing its latitude or its longitude is
rejected before any persistence or fan-out: the store is unchanged and the
(still open) sender receives exactly one `error` reply. The handler contains
no close call, so the connection stays open. -/
theorem location_missing_coordinate_rejected
    (now : Nat) (sender : Client) (clients : List Client) (db : DB)
    (locFail alertFail : Option String) (data : WsMessage)
    (ht : data.type = some "location_update")
    (hmiss : data.latitude = none ∨ data.longitude = none)
    (hopen : sender.isOpen = true) :
    ∃ m, handleMessage now sender clients db locFail alertFail data =
      (db, [Output.mk sender.id (OutMsg.errorMsg m)]) := by
  unfold handleMessage handleMessageCore
  rw [ht]
  cases h : numTruthy data.id with
  | false =>
    exact ⟨"Invalid message format", by simp [strTruthy, h, hopen]⟩
  | true =>
    rcases hmiss with h1 | h1 <;> rw [h1] <;>
      exact ⟨"Invalid location data",
        by simp [strTruthy, numTruthy, h, hopen]⟩

/-- C5 witness: the message `{type: "location_update", id: 42,
longitude: 36.8219}` (no latitude) from open connection 1: the store is
unchanged and connection 1 alone receives one error reply. -/
theorem location_missing_coordinate_rejected_witness :
    ∃ m, handleMessage 0 clientA [clientA, clientB] db0 none none msgNoLat =
      (db0, [Output.mk 1 (OutMsg.errorMsg m)]) :=
  location_missing_coordinate_rejected 0 clientA [clientA, clientB] db0 none
    none msgNoLat rfl (Or.inl rfl) rfl

/-- Reduction of the handler on an accepted `emergency_broadcast` message
(truthy id, truthy userId, present location, persistence succeeds): the
alert built from `broadcastInsert` is stored and broadcast to every open
connection, including the sender. -/
theorem handleMessage_emergency_eq
    (now : Nat) (sender : Client) (clients : List Client) (db : DB)
    (locFail : Option String) (data : WsMessage) (i uid : Rat) (loc : Loc)
    (hid : data.id = some i) (hi : i ≠ 0)
    (huid : data.userId = some uid) (hu : uid ≠ 0)
    (hloc : data.location = some loc)
    (ht : data.type = some "emergency_broadcast") :
    handleMessage now sender clients db locFail none data =
      ((createEmergencyAlert db now (broadcastInsert data uid loc)).1,
        (clients.filter fun c => c.isOpen).map fun c =>
          Output.mk c.id (OutMsg.emergencyBroadcast
            (createEmergencyAlert db now (broadcastInsert data uid loc)).2)) := by
  unfold handleMessage handleMessageCore
  rw [ht, hid, huid, hloc]
  simp [strTruthy, numTruthy, hi, hu, broadcastInsert]

/-- C2 (amended): for every `emergency_broadcast` message that also carries
a truthy `id`, has a truthy userId and a location, and whose persistence
succeeds, every currently-open connection — including the sender — receives
the persisted EmergencyAlert, and the persisted record's status is this
path's default "active". -/
theorem emergency_broadcast_fanout_amended
    (now : Nat) (sender : Client) (clients : List Client) (db : DB)
    (locFail : Option String) (data : WsMessage) (i uid : Rat) (loc : Loc)
    (hid : data.id = some i) (hi : i ≠ 0)
    (huid : data.userId = some uid) (hu : uid ≠ 0)
    (hloc : data.location = some loc)
    (ht : data.type = some "emergency_broadcast") :
    ∃ alert : EmergencyAlertRow,
      (handleMessage now sender clients db locFail none data).1.alerts =
        db.alerts ++ [alert] ∧
      alert.status = "active" ∧
      (handleMessage now sender clients db locFail none data).2 =
        (clients.filter fun c => c.isOpen).map fun c =>
          Output.mk c.id (OutMsg.emergencyBroadcast alert) := by
  refine ⟨(createEmergencyAlert db now (broadcastInsert data uid loc)).2,
    ?_, ?_, ?_⟩
  · rw [handleMessage_emergency_eq now sender clients db locFail data i uid
      loc hid hi huid hu hloc ht]
    simp [createEmergencyAlert]
  · simp [createEmergencyAlert]
  · rw [handleMessage_emergency_eq now sender clients db locFail data i uid
      loc hid hi huid hu hloc ht]

/-- C2 witness: connection 1 sends `msgEmergency` while connections 1 and 2
are open and connection 3 has closed: an alert with status "active" is
persisted and both open connections (sender included) receive it. -/
theorem emergency_broadcast_fanout_amended_witness :
    ∃ alert : EmergencyAlertRow,
      (handleMessage 0 clientA [clientA, clientB, clientC] db0 none none
        msgEmergency).1.alerts = db0.alerts ++ [alert] ∧
      alert.status = "active" ∧
      (handleMessage 0 clientA [clientA, clientB, clientC] db0 none none
        msgEmergency).2 =
        ([clientA, clientB, clientC].filter fun c => c.isOpen).map fun c =>
          Output.mk c.id (OutMsg.emergencyBroadcast alert) :=
  emergency_broadcast_fanout_amended 0 clientA [clientA, clientB, clientC]
    db0 none msgEmergency 5 7 ⟨latEx, longEx, some 15⟩ rfl (by decide) rfl
    (by decide) rfl rfl

/-- C9: for every accepted `emergency_broadcast` message, the persisted
alert's `emergencyType` is the literal message type tag
"emergency_broadcast" (`data.type`), whatever `emergencyType` the message
body carries. -/
theorem emergency_type_tag_stored
    (now : Nat) (sender : Client) (clients : List Client) (db : DB)
    (locFail : Option String) (data : WsMessage) (i uid : Rat) (loc : Loc)
    (hid : data.id = some i) (hi : i ≠ 0)
    (huid : data.userId = some uid) (hu : uid ≠ 0)
    (hloc : data.location = some loc)
    (ht : data.type = some "emergency_broadcast") :
    ∃ alert : EmergencyAlertRow,
      (handleMessage now sender clients db locFail none data).1.alerts =
        db.alerts ++ [alert] ∧
      alert.emergencyType = "emergency_broadcast" := by
  refine ⟨(createEmergencyAlert db now (broadcastInsert data uid loc)).2,
    ?_, ?_⟩ <;>
    first
      | (rw [handleMessage_emergency_eq now sender clients db locFail data i
          uid loc hid hi huid hu hloc ht]
         simp [createEmergencyAlert])
      | simp [createEmergencyAlert, broadcastInsert]

/-- C9 witness: `msgEmergency` carries `emergencyType: "fire"` in its body,
yet the persisted alert's emergencyType is "emergency_broadcast". -/
theorem emergency_type_tag_stored_witness :
    msgEmergency.emergencyType = some "fire" ∧
    ∃ alert : EmergencyAlertRow,
      (handleMessage 0 clientA [clientA, clientB] db0 none none
        msgEmergency).1.alerts = db0.alerts ++ [alert] ∧
      alert.emergencyType = "emergency_broadcast" :=
  ⟨rfl, emergency_type_tag_stored 0 clientA [clientA, clientB] db0 none
    msgEmergency 5 7 ⟨latEx, longEx, some 15⟩ rfl (by decide) rfl (by decide)
    rfl rfl⟩

/-- C10 (amended): for every accepted `emergency_broadcast` message, an
omitted or empty `severity` is persisted as priority "medium" and a
non-empty `severity` is persisted verbatim; an omitted `description` is
persisted as "" and a present `description` is persisted verbatim. -/
theorem severity_description_defaults_amended
    (now : Nat) (sender : Client) (clients : List Client) (db : DB)
    (locFail : Option String) (data : WsMessage) (i uid : Rat) (loc : Loc)
    (hid : data.id = some i) (hi : i ≠ 0)
    (huid : data.userId = some uid) (hu : uid ≠ 0)
    (hloc : data.location = some loc)
    (ht : data.type = some "emergency_broadcast") :
    ∃ alert : EmergencyAlertRow,
      (handleMessage now sender clients db locFail none data).1.alerts =
        db.alerts ++ [alert] ∧
      (data.severity = none → alert.priority = "medium") ∧
      (data.severity = some "" → alert.priority = "medium") ∧
      (∀ s, data.severity = some s → s ≠ "" → alert.priority = s) ∧
      (data.description = none → alert.description = "") ∧
      (∀ d, data.description = some d → alert.description = d) := by
  refine ⟨(createEmergencyAlert db now (broadcastInsert data uid loc)).2,
    ?_, ?_, ?_, ?_, ?_, ?_⟩
  · rw [handleMessage_emergency_eq now sender clients db locFail data i uid
      loc hid hi huid hu hloc ht]
    simp [createEmergencyAlert]
  · intro hs
    simp [createEmergencyAlert, broadcastInsert, jsOrStr, hs]
  · intro hs
    simp [createEmergencyAlert, broadcastInsert, jsOrStr, hs]
  · intro s hs hne
    simp [createEmergencyAlert, broadcastInsert, jsOrStr, hs, hne]
  · intro hd
    simp [createEmergencyAlert, broadcastInsert, jsOrStr, hd]
  · intro d hd
    rcases eq_or_ne d "" with h | h <;>
      simp [createEmergencyAlert, broadcastInsert, jsOrStr, hd, h]

/-- C10 witness: `msgEmergency` carries severity "high" and description
"help"; both are persisted verbatim. -/
theorem severity_description_defaults_amended_witness :
    msgEmergency.severity = some "high" ∧
    msgEmergency.description = some "help" ∧
    ∃ alert : EmergencyAlertRow,
      (handleMessage 0 clientA [clientA] db0 none none
        msgEmergency).1.alerts = db0.alerts ++ [alert] ∧
      (msgEmergency.severity = none → alert.priority = "medium") ∧
      (msgEmergency.severity = some "" → alert.priority = "medium") ∧
      (∀ s, msgEmergency.severity = some s → s ≠ "" → alert.priority = s) ∧
      (msgEmergency.description = none → alert.description = "") ∧
      (∀ d, msgEmergency.description = some d → alert.description = d) :=
  ⟨rfl, rfl, severity_description_defaults_amended 0 clientA [clientA] db0
    none msgEmergency 5 7 ⟨latEx, longEx, some 15⟩ rfl (by decide) rfl
    (by decide) rfl rfl⟩

/-- C10 counterexample: an accepted `emergency_broadcast` message whose
`severity` field is present but empty is persisted with priority "medium",
not the present value "" — `data.severity || 'medium'` tests truthiness,
not presence. -/
theorem empty_severity_priority_counterexample :
    msgEmptySeverity.severity = some "" ∧
    ((handleMessage 0 clientA [clientA] db0 none none
        msgEmptySeverity).1.alerts.map EmergencyAlertRow.priority) =
      ["medium"] :=
  ⟨rfl, rfl⟩

/-- C6 (amended): `createEmergencyAlert`, `resolveEmergency` and
`assignAmbulance` preserve membership of every alert's status in the closed
set {pending, active, in_progress, resolved} for all inputs;
`updateEmergency` preserves it only under the extra assumption that the
caller-supplied status, if any, lies in the set — it writes the supplied
value verbatim. -/
theorem status_closed_set_amended
    (db : DB) (now : Nat) (ins : AlertInsert) (eid aid : Nat)
    (patch : EmergencyPatch) (hdb : statusInvariant db) :
    statusInvariant (createEmergencyAlert db now ins).1 ∧
    statusInvariant (resolveEmergency db eid) ∧
    statusInvariant (assignAmbulance db eid aid) ∧
    ((∀ s, patch.status = some s → s ∈ validStatuses) →
      statusInvariant (updateEmergency db now eid patch)) := by
  refine ⟨?_, ?_, ?_, fun hp => ?_⟩
  · intro a ha
    simp only [createEmergencyAlert, List.mem_append,
      List.mem_singleton] at ha
    rcases ha with ha | rfl
    · exact hdb a ha
    · show "active" ∈ validStatuses
      decide
  · intro a ha
    simp only [resolveEmergency, List.mem_map] at ha
    obtain ⟨b, hb, rfl⟩ := ha
    by_cases h : b.id = eid
    · simp only [h, if_true]
      show "resolved" ∈ validStatuses
      decide
    · simp only [h, if_false]
      exact hdb b hb
  · intro a ha
    simp only [assignAmbulance, List.mem_map] at ha
    obtain ⟨b, hb, rfl⟩ := ha
    by_cases h : b.id = eid
    · simp only [h, if_true]
      exact hdb b hb
    · simp only [h, if_false]
      exact hdb b hb
  · intro a ha
    simp only [updateEmergency, List.mem_map] at ha
    obtain ⟨b, hb, rfl⟩ := ha
    by_cases h : b.id = eid
    · simp only [h, if_true]
      cases hs : patch.status with
      | none => simpa [hs] using hdb b hb
      | some s => simpa [hs] using hp s hs
    · simp only [h, if_false]
      exact hdb b hb

/-- C6 witness: the example store satisfies the invariant, and resolving its
alert keeps every status inside the closed set. -/
theorem status_closed_set_amended_witness :
    statusInvariant exDb ∧ statusInvariant (resolveEmergency exDb 1) := by
  have hdb : statusInvariant exDb := by
    intro a ha
    simp only [exDb, List.mem_singleton] at ha
    subst ha
    decide
  exact ⟨hdb, (status_closed_set_amended exDb 0
    ⟨7, "0", "0", none, "medical", "", "medium"⟩ 1 2 {} hdb).2.1⟩

/-- C8: truthiness-based validation in the newer relay. (a) Every inbound
message whose `id` is absent or equals 0 is rejected with a unicast
"Invalid message format" error, with no persistence and no fan-out — in
particular an `emergency_broadcast` carrying only the documented fields and
no `id`. (b) Every `location_update` whose latitude or longitude equals
exactly 0 is likewise rejected with a unicast error, no persistence and no
fan-out. -/
theorem truthiness_validation_rejects
    (now : Nat) (sender : Client) (clients : List Client) (db : DB)
    (locFail alertFail : Option String)
    (hopen : sender.isOpen = true) :
    (∀ data : WsMessage, (data.id = none ∨ data.id = some 0) →
      handleMessage now sender clients db locFail alertFail data =
        (db, [Output.mk sender.id
          (OutMsg.errorMsg "Invalid message format")])) ∧
    (∀ data : WsMessage, data.type = some "location_update" →
      (data.latitude = some 0 ∨ data.longitude = some 0) →
      ∃ m, handleMessage now sender clients db locFail alertFail data =
        (db, [Output.mk sender.id (OutMsg.errorMsg m)])) := by
  constructor
  · intro data hdata
    unfold handleMessage handleMessageCore
    rcases hdata with h | h <;> rw [h] <;> simp [numTruthy, hopen]
  · intro data ht hcoord
    unfold handleMessage handleMessageCore
    rw [ht]
    cases h : numTruthy data.id with
    | false =>
      exact ⟨"Invalid message format", by simp [strTruthy, h, hopen]⟩
    | true =>
      rcases hcoord with h1 | h1 <;> rw [h1] <;>
        exact ⟨"Invalid location data",
          by simp [strTruthy, numTruthy, h, hopen]⟩

/-- C8 witness: the id-0 message, the latitude-0 message and the id-less
`emergency_broadcast` are all rejected with a unicast error and leave the
store unchanged. -/
theorem truthiness_validation_rejects_witness :
    (handleMessage 0 clientA [clientA, clientB] db0 none none msgZeroId =
      (db0, [Output.mk 1 (OutMsg.errorMsg "Invalid message format")])) ∧
    (∃ m, handleMessage 0 clientA [clientA, clientB] db0 none none
      msgZeroLat = (db0, [Output.mk 1 (OutMsg.errorMsg m)])) ∧
    (handleMessage 0 clientA [clientA, clientB] db0 none none msgNoId =
      (db0, [Output.mk 1 (OutMsg.errorMsg "Invalid message format")])) :=
  ⟨(truthiness_validation_rejects 0 clientA [clientA, clientB] db0 none none
      rfl).1 msgZeroId (Or.inr rfl),
    (truthiness_validation_rejects 0 clientA [clientA, clientB] db0 none none
      rfl).2 msgZeroLat rfl (Or.inl rfl),
    (truthiness_validation_rejects 0 clientA [clientA, clientB] db0 none none
      rfl).1 msgNoId (Or.inl rfl)⟩

/-- When the try-block returns normally, every send it produced targets an
open member of the client set: both fan-out loops guard on
`readyState === WebSocket.OPEN`. -/
theorem handleMessageCore_ok_outputs
    (now : Nat) (sender : Client) (clients : List Client) (db : DB)
    (locFail alertFail : Option String) (data : WsMessage)
    (r : DB × List Output)
    (h : handleMessageCore now sender clients db locFail alertFail data =
      Except.ok r) :
    ∀ out ∈ r.2, ∃ c ∈ clients, c.isOpen = true ∧ out.target = c.id := by
  intro out hout
  unfold handleMessageCore at h
  repeat' split at h
  any_goals exact Except.noConfusion h
  all_goals
    injection h with h'
    subst h'
  · simp only [List.mem_map, List.mem_filter] at hout
    obtain ⟨c, ⟨hc, hcond⟩, rfl⟩ := hout
    exact ⟨c, hc, (Bool.and_eq_true _ _ |>.mp hcond).2, rfl⟩
  · simp only [List.mem_map, List.mem_filter] at hout
    obtain ⟨c, ⟨hc, hcond⟩, rfl⟩ := hout
    exact ⟨c, hc, hcond, rfl⟩
  · exact absurd hout (List.not_mem_nil out)

/-- Every send the full handler produces targets either an open member of
the client set (a fan-out recipient) or the still-open sender (the catch
block's unicast error reply). -/
theorem handleMessage_output_targets
    (now : Nat) (sender : Client) (clients : List Client) (db : DB)
    (locFail alertFail : Option String) (data : WsMessage) :
    ∀ out ∈ (handleMessage now sender clients db locFail alertFail data).2,
      (∃ c ∈ clients, c.isOpen = true ∧ out.target = c.id) ∨
      (out.target = sender.id ∧ sender.isOpen = true) := by
  intro out hout
  unfold handleMessage at hout
  cases hcore : handleMessageCore now sender clients db locFail alertFail
      data with
  | ok r =>
    rw [hcore] at hout
    exact Or.inl (handleMessageCore_ok_outputs now sender clients db locFail
      alertFail data r hcore out hout)
  | error msg =>
    rw [hcore] at hout
    by_cases hs : sender.isOpen
    · simp only [hs, if_true, List.mem_singleton] at hout
      subst hout
      exact Or.inr ⟨rfl, hs⟩
    · simp only [hs, if_false] at hout
      exact absurd hout (List.not_mem_nil out)

/-- C7: a connection whose readyState is not OPEN never receives anything
from the handler — for any inbound message, both fan-out loops and the
catch-block reply target only open connections, and the handler is a total
function (every thrown error is caught and converted into a unicast reply),
so handling a message while a peer has closed raises nothing unhandled. -/
theorem closed_connection_receives_nothing
    (now : Nat) (sender : Client) (clients : List Client) (db : DB)
    (locFail alertFail : Option String) (data : WsMessage) (c : Client)
    (hc : c ∈ clients) (hclosed : c.isOpen = false)
    (hsender : sender ∈ clients)
    (hnodup : (clients.map Client.id).Nodup) :
    ∀ out ∈ (handleMessage now sender clients db locFail alertFail data).2,
      out.target ≠ c.id := by
  intro out hout heq
  rcases handleMessage_output_targets now sender clients db locFail alertFail
      data out hout with ⟨c', hc', hopen, htarget⟩ | ⟨htarget, hopen⟩
  · have hcc : c' = c :=
      List.inj_on_of_nodup_map hnodup hc' hc (htarget ▸ heq)
    rw [hcc, hclosed] at hopen
    exact Bool.false_ne_true hopen
  · have hcc : sender = c :=
      List.inj_on_of_nodup_map hnodup hsender hc (htarget ▸ heq)
    rw [hcc, hclosed] at hopen
    exact Bool.false_ne_true hopen

/-- C7 witness: with connections 1, 2 open and connection 3 closed, no send
produced for the concrete scenario message targets connection 3. -/
theorem closed_connection_receives_nothing_witness :
    clientC ∈ [clientA, clientB, clientC] ∧ clientC.isOpen = false ∧
    ∀ out ∈ (handleMessage 100 clientA [clientA, clientB, clientC] db0 none
      none msgScenario).2, out.target ≠ clientC.id :=
  ⟨by decide, rfl,
    closed_connection_receives_nothing 100 clientA [clientA, clientB, clientC]
      db0 none none msgScenario clientC (by decide) rfl (by decide)
      (by decide)⟩

end MediTr
